import Mathlib

/-!
Verification development for the mochibot heartbeat engine, memory engine
and observation-collector framework.

The definitions below are a shallow embedding of the Python source:
  - `src/mochi/heartbeat.py`   (state machine, observe, should-think gate,
    think, act, main loop tick)
  - `src/mochi/memory_engine.py` (extraction watermark, core-memory audit)
  - `src/mochi/observers/base.py` and `src/mochi/observers/__init__.py`
    (collector fault tolerance, registry collect-all)

Time is modelled as a record carrying absolute seconds (an integer), the
local date string produced by strftime, and the local hour; the three
fields are carried independently just as the Python code reads them
independently from `datetime.now(TZ)`.  External collaborators (the LLM,
the tokenizer, the transport callback) are parameters of the functions
that call them, and side effects are reified as an explicit effect list.
-/

namespace Mochi

/-- Local time snapshot as `heartbeat.py` reads it from `datetime.now(TZ)`:
`seconds` is the absolute timeline (what `total_seconds()` differences
measure), `dateStr` is `strftime "%Y-%m-%d"`, `hour` is `.hour`. -/
structure Time where
  seconds : Int
  dateStr : String
  hour : Nat
deriving Repr, DecidableEq

/-- Configuration values consumed by the heartbeat (`mochi/config.py`). -/
structure HBConfig where
  AWAKE_HOUR_START : Nat
  AWAKE_HOUR_END : Nat
  FORCE_SLEEP_HOUR : Nat
  FORCE_WAKE_HOUR : Nat
  MAX_DAILY_PROACTIVE : Nat
  PROACTIVE_COOLDOWN_SECONDS : Nat
  THINK_FALLBACK_MINUTES : Nat
  MORNING_REPORT_HOUR : Int
  EVENING_REPORT_HOUR : Int
deriving Repr, DecidableEq

/-- The two heartbeat states (`SLEEPING` / `AWAKE` in `heartbeat.py`). -/
inductive EngineState where
  | SLEEPING
  | AWAKE
deriving Repr, DecidableEq

/-- Module-level mutable heartbeat state in `heartbeat.py`
(`_state`, `_last_think_at`, `_last_proactive_at`, `_proactive_count_today`,
`_last_proactive_date`, `_last_morning_report_date`,
`_last_evening_report_date`). -/
structure HBState where
  state : EngineState
  lastThinkAt : Option Int
  lastProactiveAt : Option Int
  proactiveCountToday : Nat
  lastProactiveDate : String
  lastMorningReportDate : String
  lastEveningReportDate : String
deriving Repr, DecidableEq

/-- Side effects the heartbeat performs, reified in execution order:
`sendCallback` is the registered transport delivery callback,
`saveMessage`/`saveMemoryItem` are the db writes, `logHeartbeat` is the
heartbeat audit log, `llmCall` marks an LLM request with its usage
purpose, `observeRun` marks that the `_observe` phase executed, and
`clearMaint` is `clear_maintenance_summary()`. -/
inductive Effect where
  | sendCallback (userId : Nat) (text : String)
  | saveMessage (userId : Nat) (role : String) (content : String)
  | saveMemoryItem (userId : Nat) (category : String) (content : String)
  | logHeartbeat (state : EngineState) (action : String) (summary : String)
  | llmCall (purpose : String)
  | observeRun
  | clearMaint
deriving Repr, DecidableEq

/-- The time-of-day bucket computed inline in `_observe`
(`heartbeat.py` lines 111-122).  Note the final `else` branch labels
every remaining hour `"night"`. -/
def time_of_day_label (hour : Nat) : String :=
  if 5 ≤ hour ∧ hour < 9 then "early_morning"
  else if 9 ≤ hour ∧ hour < 12 then "morning"
  else if 12 ≤ hour ∧ hour < 14 then "lunch"
  else if 14 ≤ hour ∧ hour < 18 then "afternoon"
  else if 18 ≤ hour ∧ hour < 21 then "evening"
  else "night"

/-- A Think action dict: `type?`/`content?` model the presence or absence
of the `"type"` and `"content"` keys; `Action.getType` is
`action.get("type", "nothing")` and `Action.getContent` is
`action.get("content", "")`. -/
structure Action where
  type? : Option String
  content? : Option String
deriving Repr, DecidableEq

def Action.getType (a : Action) : String := a.type?.getD "nothing"

def Action.getContent (a : Action) : String := a.content?.getD ""

/-- Crude rendering of `str(action)` used only for the unknown-action log. -/
def Action.render (a : Action) : String :=
  a.type?.getD "" ++ ":" ++ a.content?.getD ""

/-- Substring containment on character lists: true when `pat` occurs
contiguously inside `l`.  This models Python `pat in s` and the SQL
`LIKE '%pat%'` filter. -/
def listContainsSub (l pat : List Char) : Bool :=
  pat.isPrefixOf l ||
    match l with
    | [] => false
    | _ :: t => listContainsSub t pat

/-- `pat in s` on strings. -/
def strContainsSub (s pat : String) : Bool :=
  listContainsSub s.toList pat.toList

/-- `_act` (`heartbeat.py` lines 328-385): executes the decided action and
returns the updated module state together with the effects performed, in
order. -/
def act (cfg : HBConfig) (hasCallback : Bool) (now : Time) (userId : Nat)
    (a : Action) (s : HBState) : HBState × List Effect :=
  let actionType := a.getType
  if actionType = "nothing" then
    (s, [Effect.logHeartbeat s.state "nothing" ""])
  else if actionType = "notify" then
    let today := now.dateStr
    let s1 :=
      if today ≠ s.lastProactiveDate then
        { s with proactiveCountToday := 0, lastProactiveDate := today }
      else s
    if cfg.MAX_DAILY_PROACTIVE ≤ s1.proactiveCountToday then
      (s1, [Effect.logHeartbeat s1.state "rate_limited" ""])
    else
      let cooldownHit :=
        match s1.lastProactiveAt with
        | some t => decide (now.seconds - t < (cfg.PROACTIVE_COOLDOWN_SECONDS : Int))
        | none => false
      if cooldownHit then
        (s1, [Effect.logHeartbeat s1.state "cooldown" ""])
      else
        let content := a.getContent
        if content ≠ "" ∧ hasCallback then
          let s2 := { s1 with
            lastProactiveAt := some now.seconds,
            proactiveCountToday := s1.proactiveCountToday + 1 }
          let base :=
            [Effect.sendCallback userId content,
             Effect.saveMessage userId "assistant" content,
             Effect.logHeartbeat s2.state "notify" (content.take 100)]
          if strContainsSub content.toLower "maintenance" then
            (s2, base ++ [Effect.clearMaint])
          else
            (s2, base)
        else
          (s1, [Effect.logHeartbeat s1.state "notify_skipped"
                  "no callback or empty content"])
  else if actionType = "save_memory" then
    let memContent := a.getContent
    if memContent ≠ "" then
      (s, [Effect.saveMemoryItem userId "observation" memContent,
           Effect.logHeartbeat s.state "save_memory" (memContent.take 100)])
    else
      (s, [])
  else
    (s, [Effect.logHeartbeat s.state "unknown" a.render])

/-- One collector's contribution to the merged `observers` mapping: its
flat data dict plus the `"signals"` entry ( `[]` models an absent key, as
in the chained `get` with default in `_should_think`). -/
structure CollectorData where
  fields : List (String × String)
  signals : List String
deriving Repr, DecidableEq

/-- First association-list hit, modelling Python `dict.get` / a keyed
`SELECT`. -/
def alistGet {κ α : Type} [DecidableEq κ] (l : List (κ × α)) (k : κ) : Option α :=
  match l with
  | [] => none
  | (k2, v) :: t => if k2 = k then some v else alistGet t k

/-- The observation snapshot assembled by `_observe`, restricted to the
keys the Think gate and tick logic read.  An `Option`/empty-list value
models the key being absent from the dict (which is exactly when
`_observe` omits it). -/
structure Observation where
  maintenanceSummary : Option String
  upcomingReminders : List String
  observers : List (String × CollectorData)
deriving Repr, DecidableEq

/-- `observation.get("observers", dict()).get("activity_pattern",
dict()).get("signals", [])` from `_should_think`. -/
def patternSignals (obs : Observation) : List String :=
  match alistGet obs.observers "activity_pattern" with
  | none => []
  | some d => d.signals

/-- `_should_think` (`heartbeat.py` lines 238-272).  The Python comparison
`minutes_since >= THINK_FALLBACK_MINUTES` on the real-valued
`total_seconds()/60` is expressed equivalently in whole seconds. -/
def should_think (cfg : HBConfig) (now : Time) (s : HBState)
    (obs : Observation) : Bool :=
  match s.lastThinkAt with
  | none => true
  | some t =>
    if (cfg.THINK_FALLBACK_MINUTES : Int) * 60 ≤ now.seconds - t then true
    else if obs.maintenanceSummary.isSome then true
    else if ¬ obs.upcomingReminders.isEmpty then true
    else if ¬ (patternSignals obs).isEmpty then true
    else false

/-- Environment of one tick: the values read from the outside world —
current time, the assembled observation, prompt availability, the LLM
responses and their parse, and whether a send callback is registered. -/
structure TickEnv where
  now : Time
  obs : Observation
  reportPromptFound : Bool
  reportContent : String
  thinkPromptFound : Bool
  thinkParsed : Option Action
  hasCallback : Bool

/-- `_think` (`heartbeat.py` lines 275-321): sets `_last_think_at`
immediately on entry, then (when the prompt exists) performs the LLM call
and returns the lenient-parse outcome.  `env.thinkParsed` stands for the
result of the two-stage JSON parse of the response. -/
def think (env : TickEnv) (s : HBState) : HBState × List Effect × Option Action :=
  let s1 := { s with lastThinkAt := some env.now.seconds }
  if env.thinkPromptFound then
    (s1, [Effect.llmCall "heartbeat_think"], env.thinkParsed)
  else
    (s1, [], none)

/-- `_report_due` (`heartbeat.py` lines 182-191). -/
def report_due (cfg : HBConfig) (now : Time) (s : HBState) : Option String :=
  if 0 ≤ cfg.MORNING_REPORT_HOUR ∧ (now.hour : Int) = cfg.MORNING_REPORT_HOUR
      ∧ now.dateStr ≠ s.lastMorningReportDate then
    some "morning"
  else if 0 ≤ cfg.EVENING_REPORT_HOUR ∧ (now.hour : Int) = cfg.EVENING_REPORT_HOUR
      ∧ now.dateStr ≠ s.lastEveningReportDate then
    some "evening"
  else
    none

/-- `_send_report` (`heartbeat.py` lines 194-231). -/
def send_report (env : TickEnv) (userId : Nat) (reportType : String)
    (s : HBState) : HBState × List Effect :=
  if ¬ env.reportPromptFound then
    (s, [])
  else
    let llm := [Effect.llmCall ("report_" ++ reportType)]
    let content := env.reportContent.trim
    if content ≠ "" ∧ env.hasCallback then
      let effs := llm ++
        [Effect.sendCallback userId content,
         Effect.saveMessage userId "assistant" content,
         Effect.logHeartbeat s.state ("report_" ++ reportType) (content.take 100)]
      if reportType = "morning" then
        ({ s with lastMorningReportDate := env.now.dateStr }, effs)
      else
        ({ s with lastEveningReportDate := env.now.dateStr }, effs)
    else
      (s, llm)

/-- `_update_state` (`heartbeat.py` lines 392-409). -/
def update_state (cfg : HBConfig) (hour : Nat) (st : EngineState) : EngineState :=
  match st with
  | EngineState.SLEEPING =>
    if hour = cfg.FORCE_WAKE_HOUR ∨ (cfg.AWAKE_HOUR_START ≤ hour ∧ hour < cfg.AWAKE_HOUR_END) then
      EngineState.AWAKE
    else
      EngineState.SLEEPING
  | EngineState.AWAKE =>
    if hour = cfg.FORCE_SLEEP_HOUR ∨ hour < cfg.AWAKE_HOUR_START then
      EngineState.SLEEPING
    else
      EngineState.AWAKE

/-- One iteration of the `heartbeat_loop` body (`heartbeat.py` lines
425-455), with the external reads supplied by `env`.  Returns the updated
module state and the effects of the tick in order.  `Effect.observeRun`
marks the execution of `_observe`. -/
def heartbeat_tick (cfg : HBConfig) (owner : Option Nat) (env : TickEnv)
    (s0 : HBState) : HBState × List Effect :=
  match owner with
  | none => (s0, [])
  | some userId =>
    let s := { s0 with state := update_state cfg env.now.hour s0.state }
    if s.state = EngineState.SLEEPING then
      (s, [Effect.logHeartbeat EngineState.SLEEPING "sleeping" ""])
    else
      let obsEffs := [Effect.observeRun]
      let repStep :=
        match report_due cfg env.now s with
        | none => (s, ([] : List Effect))
        | some rt => send_report env userId rt s
      let s1 := repStep.1
      let pre := obsEffs ++ repStep.2
      if should_think cfg env.now s1 env.obs then
        let thinkStep := think env s1
        match thinkStep.2.2 with
        | some a =>
          let actStep := act cfg env.hasCallback env.now userId a thinkStep.1
          (actStep.1, pre ++ thinkStep.2.1 ++ actStep.2)
        | none =>
          (thinkStep.1, pre ++ thinkStep.2.1 ++
            [Effect.logHeartbeat thinkStep.1.state "think_no_action" ""])
      else
        (s1, pre ++ [Effect.logHeartbeat s1.state "observe_only" ""])

/-! ## Observation collector framework (`observers/base.py`, `observers/__init__.py`) -/

/-- `ObserverMeta`, the fields `collect_all` reads. -/
structure ObsMeta where
  name : String
  interval : Nat
  enabled : Bool
deriving Repr, DecidableEq

/-- Per-observer mutable state (`_last_collected_at`, `_last_data`,
`_consecutive_errors`). -/
structure ObserverState where
  lastCollectedAt : Option Int
  lastData : List (String × String)
  consecutiveErrors : Nat
deriving Repr, DecidableEq

/-- Outcome of one invocation of the underlying `observe()` coroutine:
either it returns a flat data dict or it raises. -/
inductive CollectOutcome where
  | ok (data : List (String × String))
  | raises
deriving Repr, DecidableEq

/-- `Observer.should_collect` (`base.py` lines 138-143), the minute
comparison expressed equivalently in whole seconds. -/
def should_collect (interval : Nat) (now : Int) (st : ObserverState) : Bool :=
  match st.lastCollectedAt with
  | none => true
  | some t => decide ((interval : Int) * 60 ≤ now - t)

/-- `Observer.safe_observe` (`base.py` lines 145-170): interval gate,
then either a fresh successful collection (cache updated, failure counter
reset) or a caught exception (counter incremented, stale cache
returned). -/
def safe_observe (meta : ObsMeta) (now : Int) (outcome : CollectOutcome)
    (st : ObserverState) : ObserverState × List (String × String) :=
  if ¬ should_collect meta.interval now st then
    (st, st.lastData)
  else
    match outcome with
    | CollectOutcome.ok data =>
      ({ lastCollectedAt := some now, lastData := data, consecutiveErrors := 0 },
       data)
    | CollectOutcome.raises =>
      ({ st with consecutiveErrors := st.consecutiveErrors + 1 }, st.lastData)

/-- A registered observer: metadata plus mutable state. -/
structure Collector where
  meta : ObsMeta
  st : ObserverState
deriving Repr, DecidableEq

/-- `collect_all` (`observers/__init__.py` lines 104-122): iterate the
registry in order, skipping disabled observers and observers at or past
the 5-failure ceiling; invoke `safe_observe` on the rest and keep the
non-empty results keyed by name.  Returns the updated registry (same
order) and the merged results. -/
def collect_all (now : Int) (beh : String → CollectOutcome)
    (reg : List Collector) :
    List Collector × List (String × List (String × String)) :=
  match reg with
  | [] => ([], [])
  | c :: rest =>
    let restRes := collect_all now beh rest
    if c.meta.enabled ∧ c.st.consecutiveErrors < 5 then
      let step := safe_observe c.meta now (beh c.meta.name) c.st
      (⟨c.meta, step.1⟩ :: restRes.1,
       if step.2.isEmpty then restRes.2
       else (c.meta.name, step.2) :: restRes.2)
    else
      (c :: restRes.1, restRes.2)

/-! ## Memory engine (`memory_engine.py`, `db.py`) -/

/-- A row of the `messages` table (single-owner model; `user_id` is the
fixed owner everywhere the engine touches it). -/
structure Msg where
  id : Nat
  role : String
  content : String
deriving Repr, DecidableEq

/-- A row of the `memory_items` table, the fields extraction writes. -/
structure MemItem where
  category : String
  content : String
  importance : Nat
  source : String
deriving Repr, DecidableEq

/-- Whether a message row matches `content LIKE '%[memory_extracted]%'`. -/
def isWatermarkMsg (m : Msg) : Bool :=
  strContainsSub m.content "[memory_extracted]"

/-- `MAX(id)` over the watermark rows, `COALESCE(..., 0)`
(`db.py` lines 179-181). -/
def watermarkId (msgs : List Msg) : Nat :=
  (msgs.filter isWatermarkMsg).foldl (fun a m => max a m.id) 0

/-- `get_unprocessed_conversations` (`db.py` lines 174-186): the messages
with id strictly above the watermark, in id order (the store list is kept
in insertion = id order). -/
def get_unprocessed_conversations (msgs : List Msg) : List Msg :=
  msgs.filter (fun m => watermarkId msgs < m.id)

/-- Largest message id in the store (`0` when empty); the next sqlite
rowid is one more. -/
def maxMsgId (msgs : List Msg) : Nat :=
  msgs.foldl (fun a m => max a m.id) 0

/-- `mark_messages_processed` (`db.py` lines 189-198): insert a fresh
system message carrying the watermark marker. -/
def mark_messages_processed (msgs : List Msg) (upToId : Nat) : List Msg :=
  msgs ++ [⟨maxMsgId msgs + 1, "system",
            "[memory_extracted] up_to_id=" ++ toString upToId⟩]

/-- The database slice the memory engine touches. -/
structure DB where
  msgs : List Msg
  memItems : List MemItem
deriving Repr, DecidableEq

/-- One element of the parsed extraction response: `hasContent` models
`isinstance(mem, dict) and "content" in mem`; the remaining fields carry
the values (with their Python `get` defaults already applied). -/
structure ExtractCand where
  hasContent : Bool
  category : String
  content : String
  importance : Nat
deriving Repr, DecidableEq

/-- External reads of `extract_memories`: whether the `memory_extract`
prompt exists, and the parse of the LLM response (`none` models both a
JSON decode error and a non-list result — in either case nothing is
saved). -/
structure ExtractEnv where
  promptFound : Bool
  parsed : Option (List ExtractCand)

/-- `extract_memories` (`memory_engine.py` lines 46-106).  Returns the
count of saved items and the updated database.  The watermark insert
happens whenever a non-empty batch was sent to the LLM, regardless of the
parse outcome. -/
def extract_memories (env : ExtractEnv) (db : DB) : Nat × DB :=
  let conversations := get_unprocessed_conversations db.msgs
  if conversations.isEmpty then
    (0, db)
  else if ¬ env.promptFound then
    (0, db)
  else
    let valid := (env.parsed.getD []).filter (fun c => c.hasContent)
    let newItems : List MemItem :=
      valid.map (fun c => ⟨c.category, c.content, c.importance, "extracted"⟩)
    let db1 := { db with memItems := db.memItems ++ newItems }
    let lastId := (conversations.getLast?.map Msg.id).getD 0
    let db2 := { db1 with msgs := mark_messages_processed db1.msgs lastId }
    (valid.length, db2)

/-- The `core_memory` table: one row per owner. -/
structure CoreMemStore where
  rows : List (Nat × String)
deriving Repr, DecidableEq

/-- `get_core_memory` (`db.py` lines 281-287): the row's content or `""`. -/
def get_core_memory (store : CoreMemStore) (userId : Nat) : String :=
  (alistGet store.rows userId).getD ""

/-- The dict returned by `audit_core_memory_tokens`. -/
structure AuditResult where
  status : String
  tokens : Nat
  over_budget : Bool
deriving Repr, DecidableEq

/-- Python `not s.strip()`: the string strips to empty exactly when every
character is whitespace. -/
def isBlank (s : String) : Bool := s.toList.all Char.isWhitespace

/-- `audit_core_memory_tokens` (`memory_engine.py` lines 187-211).
`countTokens` abstracts `len(tiktoken.encoding_for_model("gpt-4o")
.encode(content))`; the `not content.strip()` emptiness test is
`isBlank`.  The function reads the store and never writes it; it is
returned unchanged. -/
def audit_core_memory_tokens (countTokens : String → Nat) (budget : Nat)
    (store : CoreMemStore) (userId : Nat) : AuditResult × CoreMemStore :=
  let content := get_core_memory store userId
  if isBlank content then
    (⟨"empty", 0, false⟩, store)
  else
    let tokenCount := countTokens content
    let over := budget < tokenCount
    (⟨if over then "over_budget" else "ok", tokenCount, over⟩, store)

/-! ## Theorems -/

/-- Time-of-day labelling as the spec's claim words it, with a distinct
`late_night` bucket for hours outside 5..23 (spec-side definition, for
comparison with the code's `time_of_day_label`). -/
def spec_time_of_day_claimed (hour : Nat) : String :=
  if 5 ≤ hour ∧ hour < 9 then "early_morning"
  else if 9 ≤ hour ∧ hour < 12 then "morning"
  else if 12 ≤ hour ∧ hour < 14 then "lunch"
  else if 14 ≤ hour ∧ hour < 18 then "afternoon"
  else if 18 ≤ hour ∧ hour < 21 then "evening"
  else if 21 ≤ hour ∧ hour < 24 then "night"
  else "late_night"

/-- Recognizer for persisted message-record effects (`save_message`). -/
def isSaveMessageEff : Effect → Bool
  | Effect.saveMessage _ _ _ => true
  | _ => false

/-- The stock configuration (`config.py` defaults): awake 7-23, force
sleep 1, force wake 8, 10 daily proactives, 1800 s cooldown, 60 min
think fallback, reports disabled. -/
def cfgDefault : HBConfig := ⟨7, 23, 1, 8, 10, 1800, 60, -1, -1⟩

/-- A fully quiet observation: no maintenance summary, no reminders, no
collector data at all. -/
def obsQuiet : Observation := ⟨none, [], []⟩

/-- An observation whose only delta is a pending maintenance summary. -/
def obsMaint : Observation := ⟨some "maintenance summary", [], []⟩

/-- Tick environment at 10:00 local, 600 s into the timeline, maintenance
summary pending, think prompt present, LLM response unparseable. -/
def envMaint : TickEnv := ⟨⟨600, "2026-01-01", 10⟩, obsMaint, false, "", true, none, false⟩

/-- Tick environment at 03:00 local with a quiet observation. -/
def envNight : TickEnv := ⟨⟨600, "2026-01-01", 3⟩, obsQuiet, false, "", true, none, false⟩

/-- Awake engine state that last thought at time 0. -/
def sThought : HBState := ⟨EngineState.AWAKE, some 0, none, 0, "", "", ""⟩

/-- Sleeping engine state with no history. -/
def sAsleep : HBState := ⟨EngineState.SLEEPING, none, none, 0, "", "", ""⟩

/-- Claim C5, counterexample: at hour 0 the code's label is `"night"`,
not the `"late_night"` the claim predicts for hours below 5 — the code's
final `else` branch produces `"night"` for every hour outside 5..20 and
no `late_night` label exists in the code. -/
theorem C5_time_of_day_counterexample :
    time_of_day_label 0 = "night" ∧
    spec_time_of_day_claimed 0 = "late_night" ∧
    time_of_day_label 0 ≠ spec_time_of_day_claimed 0 := by
  decide

/-- Claim C5, amended: for every hour h in 0..23 the label follows the
five bounded buckets (early_morning 5–9, morning 9–12, lunch 12–14,
afternoon 14–18, evening 18–21) and is `"night"` otherwise, i.e. both for
21 ≤ h < 24 and for 0 ≤ h < 5; no `late_night` label is ever produced. -/
theorem C5_time_of_day_amended :
    ∀ h : Fin 24,
      ((5 ≤ h.val ∧ h.val < 9) → time_of_day_label h.val = "early_morning") ∧
      ((9 ≤ h.val ∧ h.val < 12) → time_of_day_label h.val = "morning") ∧
      ((12 ≤ h.val ∧ h.val < 14) → time_of_day_label h.val = "lunch") ∧
      ((14 ≤ h.val ∧ h.val < 18) → time_of_day_label h.val = "afternoon") ∧
      ((18 ≤ h.val ∧ h.val < 21) → time_of_day_label h.val = "evening") ∧
      ((h.val < 5 ∨ 21 ≤ h.val) → time_of_day_label h.val = "night") ∧
      time_of_day_label h.val ≠ "late_night" := by
  decide

/-- Witness for `C5_time_of_day_amended` at h = 3, discharging the
night-bucket hypothesis concretely. -/
theorem C5_time_of_day_amended_witness :
    time_of_day_label 3 = "night" :=
  ((((((C5_time_of_day_amended 3).2).2).2).2).2).1 (Or.inl (by decide))

/-- Claim C10: an action dict with no `"type"` key at all is handled by
the `nothing` branch of `_act` — `action.get("type", "nothing")` defaults
to `"nothing"`, so the tick writes a heartbeat log entry with action
`"nothing"`, performs no other side effect, and leaves the state
unchanged; it does not fall into the unknown-action branch. -/
theorem C10_act_missing_type_is_nothing
    (cfg : HBConfig) (hasCallback : Bool) (now : Time) (userId : Nat)
    (content? : Option String) (s : HBState) :
    act cfg hasCallback now userId ⟨none, content?⟩ s =
      (s, [Effect.logHeartbeat s.state "nothing" ""]) := by
  simp [act, Action.getType]

/-- Claim C9: the core-memory audit is read-only and reports `empty`
(with tokens 0) on blank content, `over_budget` with the computed token
count when it strictly exceeds the budget, and `ok` otherwise; in every
case the returned store is exactly the input store (the function performs
no write). -/
theorem C9_core_memory_audit
    (countTokens : String → Nat) (budget : Nat) (store : CoreMemStore)
    (userId : Nat) :
    (audit_core_memory_tokens countTokens budget store userId).2 = store ∧
    (isBlank (get_core_memory store userId) = true →
      (audit_core_memory_tokens countTokens budget store userId).1 =
        ⟨"empty", 0, false⟩) ∧
    (isBlank (get_core_memory store userId) = false →
      budget < countTokens (get_core_memory store userId) →
      (audit_core_memory_tokens countTokens budget store userId).1 =
        ⟨"over_budget", countTokens (get_core_memory store userId), true⟩) ∧
    (isBlank (get_core_memory store userId) = false →
      countTokens (get_core_memory store userId) ≤ budget →
      (audit_core_memory_tokens countTokens budget store userId).1 =
        ⟨"ok", countTokens (get_core_memory store userId), false⟩) := by
  refine ⟨?_, ?_, ?_, ?_⟩
  · by_cases h : isBlank (get_core_memory store userId) <;>
      simp [audit_core_memory_tokens, h]
  · intro hblank
    simp [audit_core_memory_tokens, hblank]
  · intro hblank hover
    simp [audit_core_memory_tokens, hblank, hover]
  · intro hblank hok
    simp [audit_core_memory_tokens, hblank, Nat.not_lt.mpr hok]

/-- Witness for `C9_core_memory_audit`: the spec's concrete scenario —
content measuring 950 tokens against a budget of 800 audits as
over_budget with the store untouched. -/
theorem C9_core_memory_audit_witness :
    (audit_core_memory_tokens (fun _ => 950) 800 ⟨[(1, "core facts")]⟩ 1).1 =
      ⟨"over_budget", 950, true⟩ ∧
    (audit_core_memory_tokens (fun _ => 950) 800 ⟨[(1, "core facts")]⟩ 1).2 =
      ⟨[(1, "core facts")]⟩ := by
  refine ⟨?_, (C9_core_memory_audit (fun _ => 950) 800 ⟨[(1, "core facts")]⟩ 1).1⟩
  exact (C9_core_memory_audit (fun _ => 950) 800 ⟨[(1, "core facts")]⟩ 1).2.2.1
    (by decide) (by decide)

/-- Claim C2: a `notify` action is rejected by `_act` whenever, for the
current local day, the daily proactive counter has already reached
`MAX_DAILY_PROACTIVE` (logged `rate_limited`, checked first, so the
(N+1)-th notify of the day is rejected regardless of the cooldown-state
`lastProactiveAt`, which is universally quantified here) or the time
since the last proactive send is under `PROACTIVE_COOLDOWN_SECONDS`
(logged `cooldown`); in both cases the returned state is exactly the
input state — counter not incremented — and the only effect is the
heartbeat log entry with the specific reason: no delivery callback run,
no assistant message persisted. -/
theorem C2_notify_rate_limit_gates
    (cfg : HBConfig) (hasCallback : Bool) (now : Time) (userId : Nat)
    (content? : Option String) (s : HBState)
    (hday : s.lastProactiveDate = now.dateStr) :
    (cfg.MAX_DAILY_PROACTIVE ≤ s.proactiveCountToday →
      act cfg hasCallback now userId ⟨some "notify", content?⟩ s =
        (s, [Effect.logHeartbeat s.state "rate_limited" ""])) ∧
    (∀ t, s.proactiveCountToday < cfg.MAX_DAILY_PROACTIVE →
      s.lastProactiveAt = some t →
      now.seconds - t < (cfg.PROACTIVE_COOLDOWN_SECONDS : Int) →
      act cfg hasCallback now userId ⟨some "notify", content?⟩ s =
        (s, [Effect.logHeartbeat s.state "cooldown" ""])) := by
  constructor
  · intro hcap
    simp [act, Action.getType, hday, hcap]
  · intro t hcap hlast hcool
    simp [act, Action.getType, hday, Nat.not_le.mpr hcap, hlast, hcool]

/-- Witness for `C2_notify_rate_limit_gates`: with a daily cap of 2
already reached, the third notify of the day is rejected as
`rate_limited`, with no delivery and no counter change. -/
theorem C2_notify_rate_limit_gates_witness :
    act ⟨7, 23, 1, 8, 2, 1800, 60, -1, -1⟩ true ⟨86400, "2026-01-02", 10⟩ 1
        ⟨some "notify", some "hi"⟩
        ⟨EngineState.AWAKE, none, some 1000, 2, "2026-01-02", "", ""⟩ =
      (⟨EngineState.AWAKE, none, some 1000, 2, "2026-01-02", "", ""⟩,
       [Effect.logHeartbeat EngineState.AWAKE "rate_limited" ""]) :=
  (C2_notify_rate_limit_gates ⟨7, 23, 1, 8, 2, 1800, 60, -1, -1⟩ true
    ⟨86400, "2026-01-02", 10⟩ 1 (some "hi")
    ⟨EngineState.AWAKE, none, some 1000, 2, "2026-01-02", "", ""⟩ rfl).1
    (by decide)

/-- Claim C3: a `notify` action that passes both rate-limit gates, with
non-empty content and a registered delivery callback, results in the
daily proactive counter incremented by exactly one, the last-proactive
timestamp set to now, and exactly one persisted message record — an
assistant-role record carrying exactly the delivered content. -/
theorem C3_notify_delivery_roundtrip
    (cfg : HBConfig) (now : Time) (userId : Nat) (c : String) (s : HBState)
    (hc : c ≠ "")
    (hday : s.lastProactiveDate = now.dateStr)
    (hcap : s.proactiveCountToday < cfg.MAX_DAILY_PROACTIVE)
    (hcool : ∀ t, s.lastProactiveAt = some t →
      (cfg.PROACTIVE_COOLDOWN_SECONDS : Int) ≤ now.seconds - t) :
    (act cfg true now userId ⟨some "notify", some c⟩ s).1.proactiveCountToday
        = s.proactiveCountToday + 1 ∧
    (act cfg true now userId ⟨some "notify", some c⟩ s).1.lastProactiveAt
        = some now.seconds ∧
    ((act cfg true now userId ⟨some "notify", some c⟩ s).2.filter
        isSaveMessageEff) = [Effect.saveMessage userId "assistant" c] := by
  have hcool2 : ∀ t ∈ s.lastProactiveAt,
      ¬ now.seconds - t < (cfg.PROACTIVE_COOLDOWN_SECONDS : Int) := by
    intro t ht
    exact Int.not_lt.mpr (hcool t ht)
  cases hl : s.lastProactiveAt with
  | none =>
    simp [act, Action.getType, Action.getContent, hday, Nat.not_le.mpr hcap,
      hl, hc]
    split <;> simp [isSaveMessageEff]
  | some t =>
    have hnc : ¬ now.seconds - t < (cfg.PROACTIVE_COOLDOWN_SECONDS : Int) :=
      hcool2 t (by rw [hl]; exact Option.mem_some_self t)
    simp [act, Action.getType, Action.getContent, hday, Nat.not_le.mpr hcap,
      hl, hnc, hc]
    split <;> simp [isSaveMessageEff]

/-- Witness for `C3_notify_delivery_roundtrip`: a first notify of the day
under a cap of 2, with no prior proactive send, increments the counter to
one and persists exactly one assistant record with the content. -/
theorem C3_notify_delivery_roundtrip_witness :
    (act ⟨7, 23, 1, 8, 2, 1800, 60, -1, -1⟩ true ⟨86400, "2026-01-02", 10⟩ 1
        ⟨some "notify", some "hi"⟩
        ⟨EngineState.AWAKE, none, none, 0, "2026-01-02", "", ""⟩).1.proactiveCountToday = 1 ∧
    ((act ⟨7, 23, 1, 8, 2, 1800, 60, -1, -1⟩ true ⟨86400, "2026-01-02", 10⟩ 1
        ⟨some "notify", some "hi"⟩
        ⟨EngineState.AWAKE, none, none, 0, "2026-01-02", "", ""⟩).2.filter
        isSaveMessageEff) = [Effect.saveMessage 1 "assistant" "hi"] := by
  have h := C3_notify_delivery_roundtrip ⟨7, 23, 1, 8, 2, 1800, 60, -1, -1⟩
    ⟨86400, "2026-01-02", 10⟩ 1 "hi"
    ⟨EngineState.AWAKE, none, none, 0, "2026-01-02", "", ""⟩
    (by decide) rfl (by decide) (by intro t ht; cases ht)
  exact ⟨h.1, h.2.2⟩

/-- Helper: the Should-Think gate is false when a previous think exists,
the fallback ceiling is unmet, and the observation carries no maintenance
summary, no upcoming reminders and no activity-pattern signals. -/
theorem should_think_quiet (cfg : HBConfig) (now : Time) (s : HBState)
    (obs : Observation) (t : Int)
    (hlt : s.lastThinkAt = some t)
    (hfall : now.seconds - t < (cfg.THINK_FALLBACK_MINUTES : Int) * 60)
    (hms : obs.maintenanceSummary = none)
    (hur : obs.upcomingReminders = [])
    (hsig : patternSignals obs = []) :
    should_think cfg now s obs = false := by
  unfold should_think
  rw [hlt]
  simp [hms, hur, hsig, Int.not_le.mpr hfall]

/-- Helper: `_send_report` never touches the think/proactive bookkeeping
or the engine state; it only updates the report-date markers. -/
theorem send_report_preserves (env : TickEnv) (userId : Nat) (rt : String)
    (s : HBState) :
    (send_report env userId rt s).1.state = s.state ∧
    (send_report env userId rt s).1.lastThinkAt = s.lastThinkAt ∧
    (send_report env userId rt s).1.lastProactiveAt = s.lastProactiveAt ∧
    (send_report env userId rt s).1.proactiveCountToday = s.proactiveCountToday ∧
    (send_report env userId rt s).1.lastProactiveDate = s.lastProactiveDate := by
  simp only [send_report]
  split_ifs <;> simp

/-- Helper: the LLM call a report performs is tagged `report_morning` or
`report_evening`, never `heartbeat_think`. -/
theorem send_report_no_think_call (env : TickEnv) (userId : Nat)
    (rt : String) (s : HBState) (h : rt = "morning" ∨ rt = "evening") :
    Effect.llmCall "heartbeat_think" ∉ (send_report env userId rt s).2 := by
  rcases h with h | h <;> subst h <;>
    · simp only [send_report]
      split_ifs <;> simp

/-- Helper: `_report_due` only ever returns `morning` or `evening`. -/
theorem report_due_cases (cfg : HBConfig) (now : Time) (s : HBState)
    (rt : String) (h : report_due cfg now s = some rt) :
    rt = "morning" ∨ rt = "evening" := by
  unfold report_due at h
  split at h
  · exact Or.inl (Option.some.inj h).symm
  · split at h
    · exact Or.inr (Option.some.inj h).symm
    · cases h

/-- Claim C6: `_think` writes `_last_think_at` at the moment of
invocation, before any parsing, so a Think call whose response fails to
parse (action `none`) still moves the timestamp; consequently the next
tick's Should-Think gate measures elapsed time from this (failed) call:
on a quiet observation it reduces to exactly the fallback-ceiling
comparison against this call's time. -/
theorem C6_think_timestamp_on_invocation (env : TickEnv) (s : HBState) :
    (think env s).1.lastThinkAt = some env.now.seconds ∧
    (env.thinkParsed = none → (think env s).2.2 = none) ∧
    (∀ (cfg : HBConfig) (now2 : Time) (obs : Observation),
      obs.maintenanceSummary = none → obs.upcomingReminders = [] →
      patternSignals obs = [] →
      should_think cfg now2 (think env s).1 obs =
        decide ((cfg.THINK_FALLBACK_MINUTES : Int) * 60 ≤
          now2.seconds - env.now.seconds)) := by
  have h1 : (think env s).1.lastThinkAt = some env.now.seconds := by
    unfold think
    split <;> simp
  refine ⟨h1, ?_, ?_⟩
  · intro hp
    unfold think
    split <;> simp [hp]
  · intro cfg now2 obs hms hur hsig
    unfold should_think
    rw [h1]
    by_cases hc : (cfg.THINK_FALLBACK_MINUTES : Int) * 60 ≤
        now2.seconds - env.now.seconds <;> simp [hms, hur, hsig, hc]

/-- Witness for `C6_think_timestamp_on_invocation`: a think at time 600
whose response fails to parse still sets the timestamp to 600 and makes a
quiet tick 60 seconds later fall below the 60-minute fallback ceiling. -/
theorem C6_think_timestamp_on_invocation_witness :
    (think envMaint sThought).1.lastThinkAt = some 600 ∧
    (think envMaint sThought).2.2 = none ∧
    should_think cfgDefault ⟨660, "2026-01-01", 10⟩ (think envMaint sThought).1
      obsQuiet = false := by
  have h := C6_think_timestamp_on_invocation envMaint sThought
  refine ⟨h.1, h.2.1 rfl, ?_⟩
  rw [h.2.2 cfgDefault ⟨660, "2026-01-01", 10⟩ obsQuiet rfl rfl rfl]
  decide

/-- Claim C1, counterexample: a tick whose observation carries no
activity-pattern signals and whose elapsed-since-last-think (600 s) is
far below the 60-minute fallback ceiling nevertheless invokes Think,
because a pending maintenance summary is an independent trigger of the
gate; the tick is not logged `observe_only`. -/
theorem C1_quiet_tick_counterexample :
    patternSignals obsMaint = [] ∧
    sThought.lastThinkAt = some 0 ∧
    envMaint.now.seconds - 0 < (cfgDefault.THINK_FALLBACK_MINUTES : Int) * 60 ∧
    Effect.llmCall "heartbeat_think"
      ∈ (heartbeat_tick cfgDefault (some 1) envMaint sThought).2 ∧
    Effect.logHeartbeat EngineState.AWAKE "observe_only" ""
      ∉ (heartbeat_tick cfgDefault (some 1) envMaint sThought).2 := by
  decide

/-- Claim C1, amended: on an awake tick whose observation has no
activity-pattern anomaly signals, *no pending maintenance summary and no
upcoming reminders*, and where a previous Think call exists with elapsed
time strictly below the fallback ceiling, the Think LLM call is not made,
the tick is logged `observe_only`, and the last-think timestamp is left
untouched. -/
theorem C1_quiet_tick_amended
    (cfg : HBConfig) (userId : Nat) (env : TickEnv) (s0 : HBState) (t : Int)
    (hlt : s0.lastThinkAt = some t)
    (hfall : env.now.seconds - t < (cfg.THINK_FALLBACK_MINUTES : Int) * 60)
    (hms : env.obs.maintenanceSummary = none)
    (hur : env.obs.upcomingReminders = [])
    (hsig : patternSignals env.obs = [])
    (hAwake : update_state cfg env.now.hour s0.state = EngineState.AWAKE) :
    Effect.llmCall "heartbeat_think" ∉ (heartbeat_tick cfg (some userId) env s0).2 ∧
    Effect.logHeartbeat EngineState.AWAKE "observe_only" ""
        ∈ (heartbeat_tick cfg (some userId) env s0).2 ∧
    (heartbeat_tick cfg (some userId) env s0).1.lastThinkAt = some t := by
  unfold heartbeat_tick
  rw [hAwake]
  cases hrep : report_due cfg env.now { s0 with state := EngineState.AWAKE } with
  | none =>
    have hq := should_think_quiet cfg env.now
      { s0 with state := EngineState.AWAKE } env.obs t hlt hfall hms hur hsig
    refine ⟨?_, ?_, ?_⟩
    · simp [hrep, hq]
    · simp [hrep, hq]
    · simp [hrep, hq]
      exact hlt
  | some rt =>
    have hpres := send_report_preserves env userId rt
      { s0 with state := EngineState.AWAKE }
    have hltp : (send_report env userId rt
        { s0 with state := EngineState.AWAKE }).1.lastThinkAt = some t := by
      rw [hpres.2.1]; exact hlt
    have hq := should_think_quiet cfg env.now
      (send_report env userId rt { s0 with state := EngineState.AWAKE }).1
      env.obs t hltp hfall hms hur hsig
    have hnt := send_report_no_think_call env userId rt
      { s0 with state := EngineState.AWAKE }
      (report_due_cases cfg env.now { s0 with state := EngineState.AWAKE } rt hrep)
    have hst := hpres.1
    refine ⟨?_, ?_, ?_⟩
    · simp [hrep, hq]
      intro hmem
      exact hnt hmem
    · simp [hrep, hq, hst]
    · simp [hrep, hq]
      exact hltp

/-- Witness for `C1_quiet_tick_amended`: a concrete awake quiet tick
where the gate declines: 600 s elapsed against a 3600 s ceiling, quiet
observation — no think call, tick logged `observe_only`. -/
theorem C1_quiet_tick_amended_witness :
    Effect.llmCall "heartbeat_think"
      ∉ (heartbeat_tick cfgDefault (some 1)
          ⟨⟨600, "2026-01-01", 10⟩, obsQuiet, false, "", true, none, false⟩
          sThought).2 ∧
    Effect.logHeartbeat EngineState.AWAKE "observe_only" ""
      ∈ (heartbeat_tick cfgDefault (some 1)
          ⟨⟨600, "2026-01-01", 10⟩, obsQuiet, false, "", true, none, false⟩
          sThought).2 := by
  have h := C1_quiet_tick_amended cfgDefault 1
    ⟨⟨600, "2026-01-01", 10⟩, obsQuiet, false, "", true, none, false⟩
    sThought 0 rfl (by decide) rfl rfl rfl (by decide)
  exact ⟨h.1, h.2.1⟩

/-- Claim C4, counterexample: a tick at 03:00 with an owner configured
and the engine SLEEPING does not run the Observe phase at all — the loop
logs `sleeping` and skips straight to the next sleep, so Observe does
*not* run regardless of state. -/
theorem C4_observe_counterexample :
    (heartbeat_tick cfgDefault (some 1) envNight sAsleep).2 =
      [Effect.logHeartbeat EngineState.SLEEPING "sleeping" ""] ∧
    Effect.observeRun ∉ (heartbeat_tick cfgDefault (some 1) envNight sAsleep).2 := by
  decide

/-- Claim C4, amended: on a heartbeat tick with an owner configured, the
Observe phase runs exactly when the state after this tick's transition
update is AWAKE; when it is SLEEPING the tick only logs `sleeping` and
Observe is skipped. -/
theorem C4_observe_amended
    (cfg : HBConfig) (userId : Nat) (env : TickEnv) (s0 : HBState) :
    (update_state cfg env.now.hour s0.state = EngineState.AWAKE →
      Effect.observeRun ∈ (heartbeat_tick cfg (some userId) env s0).2) ∧
    (update_state cfg env.now.hour s0.state = EngineState.SLEEPING →
      (heartbeat_tick cfg (some userId) env s0).2 =
        [Effect.logHeartbeat EngineState.SLEEPING "sleeping" ""]) := by
  constructor
  · intro hAwake
    unfold heartbeat_tick
    rw [hAwake]
    cases hrep : report_due cfg env.now { s0 with state := EngineState.AWAKE } with
    | none =>
      rcases Bool.eq_false_or_eq_true (should_think cfg env.now
          { s0 with state := EngineState.AWAKE } env.obs) with hth | hth
      · simp [hrep, hth, think]
        split <;> simp [act]
      · simp [hrep, hth]
    | some rt =>
      rcases Bool.eq_false_or_eq_true (should_think cfg env.now
          (send_report env userId rt { s0 with state := EngineState.AWAKE }).1
          env.obs) with hth | hth
      · simp [hrep, hth, think]
        split <;> simp [act]
      · simp [hrep, hth]
  · intro hSleep
    unfold heartbeat_tick
    rw [hSleep]
    simp

/-- Witness for `C4_observe_amended`: at 10:00 the updated state is AWAKE
and the tick runs Observe; at 03:00 from SLEEPING it only logs
`sleeping`. -/
theorem C4_observe_amended_witness :
    Effect.observeRun ∈ (heartbeat_tick cfgDefault (some 1)
      ⟨⟨600, "2026-01-01", 10⟩, obsQuiet, false, "", true, none, false⟩
      sThought).2 ∧
    (heartbeat_tick cfgDefault (some 1) envNight sAsleep).2 =
      [Effect.logHeartbeat EngineState.SLEEPING "sleeping" ""] := by
  constructor
  · exact (C4_observe_amended cfgDefault 1
      ⟨⟨600, "2026-01-01", 10⟩, obsQuiet, false, "", true, none, false⟩
      sThought).1 (by decide)
  · exact (C4_observe_amended cfgDefault 1 envNight sAsleep).2 (by decide)

/-- Helper: the fold computing a maximum id never drops below its
starting accumulator. -/
theorem foldl_max_init_le (l : List Msg) (a : Nat) :
    a ≤ l.foldl (fun x m => max x m.id) a := by
  induction l generalizing a with
  | nil => exact le_refl a
  | cons h t ih =>
    simp only [List.foldl_cons]
    exact le_trans (le_max_left a h.id) (ih (max a h.id))

/-- Helper: every member's id is bounded by the max-id fold. -/
theorem mem_le_foldl_max (l : List Msg) : ∀ (a : Nat) (m : Msg), m ∈ l →
    m.id ≤ l.foldl (fun x m2 => max x m2.id) a := by
  induction l with
  | nil => intro a m hm; cases hm
  | cons h t ih =>
    intro a m hm
    simp only [List.foldl_cons]
    cases hm with
    | head => exact le_trans (le_max_right a h.id) (foldl_max_init_le t (max a h.id))
    | tail _ hmem => exact ih (max a h.id) m hmem

/-- Helper: the max-id fold is bounded by any bound dominating the
accumulator and every member. -/
theorem foldl_max_le (l : List Msg) : ∀ (a B : Nat), a ≤ B →
    (∀ m ∈ l, m.id ≤ B) → l.foldl (fun x m => max x m.id) a ≤ B := by
  induction l with
  | nil => intro a B ha _; exact ha
  | cons h t ih =>
    intro a B ha hall
    simp only [List.foldl_cons]
    exact ih (max a h.id) B (max_le ha (hall h (List.mem_cons_self h t)))
      (fun m hm => hall m (List.mem_cons_of_mem h hm))

/-- Helper: every message id is at most `maxMsgId`. -/
theorem le_maxMsgId (msgs : List Msg) (m : Msg) (hm : m ∈ msgs) :
    m.id ≤ maxMsgId msgs :=
  mem_le_foldl_max msgs 0 m hm

/-- Helper: the watermark id is bounded by the largest message id. -/
theorem watermarkId_le_maxMsgId (msgs : List Msg) :
    watermarkId msgs ≤ maxMsgId msgs :=
  foldl_max_le _ 0 (maxMsgId msgs) (Nat.zero_le _)
    (fun m hm => le_maxMsgId msgs m (List.mem_of_mem_filter hm))

/-- Helper: a list that starts with the pattern contains it. -/
theorem listContainsSub_of_prefix (l pat : List Char)
    (h : pat.isPrefixOf l = true) : listContainsSub l pat = true := by
  unfold listContainsSub
  rw [h]
  simp

/-- Helper: the marker message inserted by `mark_messages_processed`
matches the `LIKE '%[memory_extracted]%'` watermark filter for every id
and every recorded up-to id. -/
theorem marker_isWatermark (i n : Nat) :
    isWatermarkMsg ⟨i, "system", "[memory_extracted] up_to_id=" ++ toString n⟩
      = true := by
  unfold isWatermarkMsg strContainsSub
  apply listContainsSub_of_prefix
  rw [List.isPrefixOf_iff_prefix]
  have h1 : ("[memory_extracted] up_to_id=" ++ toString n).toList =
      "[memory_extracted] up_to_id=".toList ++ (toString n).toList := by
    simp [String.toList, String.data_append]
  rw [h1]
  exact List.IsPrefix.trans (by decide) (List.prefix_append _ _)

/-- Helper: after appending a watermark message whose id exceeds every
existing id, no message is left above the watermark. -/
theorem get_unprocessed_after_mark (msgs : List Msg) (w : Msg)
    (hw : isWatermarkMsg w = true) (hid : maxMsgId msgs < w.id) :
    get_unprocessed_conversations (msgs ++ [w]) = [] := by
  have hwm : w.id ≤ watermarkId (msgs ++ [w]) := by
    unfold watermarkId
    rw [List.filter_append]
    have hfw : List.filter isWatermarkMsg [w] = [w] := by
      simp [hw]
    rw [hfw, List.foldl_append]
    simp only [List.foldl_cons, List.foldl_nil]
    exact le_max_right _ _
  unfold get_unprocessed_conversations
  rw [List.filter_eq_nil_iff]
  intro m hm
  simp only [decide_eq_true_eq, not_lt]
  rcases List.mem_append.mp hm with hmem | hmem
  · exact le_trans (le_trans (le_maxMsgId msgs m hmem) (Nat.le_of_lt hid)) hwm
  · rcases List.mem_singleton.mp hmem with rfl
    exact hwm

/-- Helper: extraction with an empty unprocessed window returns zero and
leaves the database untouched. -/
theorem extract_memories_nothing (env : ExtractEnv) (db : DB)
    (h : get_unprocessed_conversations db.msgs = []) :
    extract_memories env db = (0, db) := by
  simp [extract_memories, h]

/-- Claim C7: memory extraction is idempotent over the watermark.  A
first call on a non-empty unprocessed batch (with the extraction prompt
present) appends exactly one watermark message recording the id of the
last message of the batch — regardless of the parse outcome
`env1.parsed` — and a second call with no new messages in between finds
nothing to process: it returns zero and leaves the database exactly as
the first call left it. -/
theorem C7_extraction_idempotent (env1 env2 : ExtractEnv) (db : DB)
    (hne : get_unprocessed_conversations db.msgs ≠ [])
    (hp : env1.promptFound = true) :
    (extract_memories env1 db).2.msgs =
      db.msgs ++ [⟨maxMsgId db.msgs + 1, "system",
        "[memory_extracted] up_to_id=" ++
          toString (((get_unprocessed_conversations db.msgs).getLast?.map
            Msg.id).getD 0)⟩] ∧
    extract_memories env2 (extract_memories env1 db).2 =
      (0, (extract_memories env1 db).2) := by
  have hne2 : (get_unprocessed_conversations db.msgs).isEmpty = false := by
    cases hcase : get_unprocessed_conversations db.msgs with
    | nil => exact absurd hcase hne
    | cons a t => rfl
  have hmsgs : (extract_memories env1 db).2.msgs =
      db.msgs ++ [⟨maxMsgId db.msgs + 1, "system",
        "[memory_extracted] up_to_id=" ++
          toString (((get_unprocessed_conversations db.msgs).getLast?.map
            Msg.id).getD 0)⟩] := by
    simp [extract_memories, hne2, hp, mark_messages_processed]
  refine ⟨hmsgs, ?_⟩
  have hempty : get_unprocessed_conversations
      (extract_memories env1 db).2.msgs = [] := by
    rw [hmsgs]
    exact get_unprocessed_after_mark db.msgs _
      (marker_isWatermark _ _) (Nat.lt_succ_self _)
  exact extract_memories_nothing env2 _ hempty

/-- Witness for `C7_extraction_idempotent`: one user message, failed
parse on the first call — the watermark message is appended anyway and a
second call returns zero with the database untouched. -/
theorem C7_extraction_idempotent_witness :
    (extract_memories ⟨true, none⟩ ⟨[⟨1, "user", "hello"⟩], []⟩).2.msgs =
      [⟨1, "user", "hello"⟩,
       ⟨2, "system", "[memory_extracted] up_to_id=1"⟩] ∧
    extract_memories ⟨true, none⟩
        (extract_memories ⟨true, none⟩ ⟨[⟨1, "user", "hello"⟩], []⟩).2 =
      (0, (extract_memories ⟨true, none⟩ ⟨[⟨1, "user", "hello"⟩], []⟩).2) := by
  have h := C7_extraction_idempotent ⟨true, none⟩ ⟨true, none⟩
    ⟨[⟨1, "user", "hello"⟩], []⟩ (by decide) rfl
  exact ⟨h.1, h.2⟩

/-- Helper: `collect_all` processes each registered collector
independently, so it distributes over list append in both the updated
registry and the merged results. -/
theorem collect_all_append (now : Int) (beh : String → CollectOutcome)
    (l1 l2 : List Collector) :
    collect_all now beh (l1 ++ l2) =
      ((collect_all now beh l1).1 ++ (collect_all now beh l2).1,
       (collect_all now beh l1).2 ++ (collect_all now beh l2).2) := by
  induction l1 with
  | nil => simp [collect_all]
  | cons c rest ih =>
    simp only [List.cons_append, collect_all, ih]
    by_cases h : c.meta.enabled = true ∧ c.st.consecutiveErrors < 5
    · by_cases h2 : (safe_observe c.meta now (beh c.meta.name) c.st).2.isEmpty <;>
        simp [h, h2, ih]
    · simp [h, ih]

/-- Claim C8: collector fault tolerance.  (i) When due, a raising
collection increments the consecutive-failure counter and returns the
stale cached data instead of propagating; (ii) a single successful
collection resets the counter to zero; (iii) a collector at or past 5
consecutive failures (or disabled) is excluded by `collect_all`: its
state is untouched — it is never invoked again — and it contributes
nothing to the merged results, while all other collectors are processed
exactly as if it were absent; (iv) an enabled collector under the
failure ceiling is invoked through `safe_observe` and its non-empty
result is merged under its name. -/
theorem C8_collector_fault_tolerance (now : Int)
    (beh : String → CollectOutcome) :
    (∀ (meta : ObsMeta) (st : ObserverState),
      should_collect meta.interval now st = true →
      safe_observe meta now CollectOutcome.raises st =
        ({ st with consecutiveErrors := st.consecutiveErrors + 1 },
         st.lastData)) ∧
    (∀ (meta : ObsMeta) (st : ObserverState) (d : List (String × String)),
      should_collect meta.interval now st = true →
      (safe_observe meta now (CollectOutcome.ok d) st).1.consecutiveErrors
        = 0) ∧
    (∀ (pre : List Collector) (c : Collector) (post : List Collector),
      ¬ (c.meta.enabled = true ∧ c.st.consecutiveErrors < 5) →
      collect_all now beh (pre ++ c :: post) =
        ((collect_all now beh pre).1 ++ c :: (collect_all now beh post).1,
         (collect_all now beh pre).2 ++ (collect_all now beh post).2)) ∧
    (∀ (pre : List Collector) (c : Collector) (post : List Collector),
      c.meta.enabled = true → c.st.consecutiveErrors < 5 →
      collect_all now beh (pre ++ c :: post) =
        ((collect_all now beh pre).1
            ++ ⟨c.meta, (safe_observe c.meta now (beh c.meta.name) c.st).1⟩
            :: (collect_all now beh post).1,
         (collect_all now beh pre).2
            ++ (if (safe_observe c.meta now (beh c.meta.name) c.st).2.isEmpty
                then (collect_all now beh post).2
                else (c.meta.name,
                      (safe_observe c.meta now (beh c.meta.name) c.st).2)
                  :: (collect_all now beh post).2))) := by
  refine ⟨?_, ?_, ?_, ?_⟩
  · intro meta st h
    simp [safe_observe, h]
  · intro meta st d h
    simp [safe_observe, h]
  · intro pre c post h
    rw [collect_all_append]
    simp [collect_all, h]
  · intro pre c post h1 h2
    rw [collect_all_append]
    by_cases h3 : (safe_observe c.meta now (beh c.meta.name) c.st).2.isEmpty <;>
      simp [collect_all, h1, h2, h3]

/-- Witness for `C8_collector_fault_tolerance`: a due, always-raising
collector at 4 failures moves to 5 and returns its cache; at 5 failures
`collect_all` leaves it untouched and reports only the healthy sibling. -/
theorem C8_collector_fault_tolerance_witness :
    safe_observe ⟨"oura", 20, true⟩ 10000 CollectOutcome.raises
        ⟨some 0, [("readiness", "80")], 4⟩ =
      (⟨some 0, [("readiness", "80")], 5⟩, [("readiness", "80")]) ∧
    collect_all 10000 (fun _ => CollectOutcome.ok [("temp", "21")])
        [⟨⟨"oura", 20, true⟩, ⟨some 0, [("readiness", "80")], 5⟩⟩,
         ⟨⟨"weather", 30, true⟩, ⟨none, [], 0⟩⟩] =
      ([⟨⟨"oura", 20, true⟩, ⟨some 0, [("readiness", "80")], 5⟩⟩,
        ⟨⟨"weather", 30, true⟩, ⟨some 10000, [("temp", "21")], 0⟩⟩],
       [("weather", [("temp", "21")])]) := by
  constructor
  · exact (C8_collector_fault_tolerance 10000
      (fun _ => CollectOutcome.ok [("temp", "21")])).1
      ⟨"oura", 20, true⟩ ⟨some 0, [("readiness", "80")], 4⟩ (by decide)
  · have h := ((C8_collector_fault_tolerance 10000
      (fun _ => CollectOutcome.ok [("temp", "21")])).2.2.1)
      [] ⟨⟨"oura", 20, true⟩, ⟨some 0, [("readiness", "80")], 5⟩⟩
      [⟨⟨"weather", 30, true⟩, ⟨none, [], 0⟩⟩] (by decide)
    simpa using h.trans (by decide)

end Mochi
